import Mathlib

/- Shallow embedding of the murattil-quran transcription gateway functions:
   the two HuggingFace retry proxies (src/unnamed/part_000 and part_001),
   the whisper-large-v3 single-shot proxy and the AssemblyAI upload-poll
   handler (both in src/netlify/functions/transcribe.mjs).  Machine-level
   effects (console logging, the AbortController timeout plumbing, header
   dictionaries) are abstracted away; everything the handlers observe from
   the outside world is passed in as an oracle argument, and everything
   they emit (the response envelope, the backoff waits, the number of
   outbound fetch calls, the Authorization header value they would send)
   is returned in the run record. -/

namespace Murattil

/-- Decidable equality for Except, needed to evaluate concrete runs. -/
instance {ε α : Type} [DecidableEq ε] [DecidableEq α] : DecidableEq (Except ε α) := fun a b =>
  match a, b with
  | Except.error x, Except.error y => decidable_of_iff (x = y) (by simp)
  | Except.error _, Except.ok _ => isFalse (by simp)
  | Except.ok _, Except.error _ => isFalse (by simp)
  | Except.ok x, Except.ok y => decidable_of_iff (x = y) (by simp)

/-- An inbound request: its HTTP method plus the result of awaiting
request.arrayBuffer() — either a thrown error message or the byte length
of the received buffer.  An ArrayBuffer object is always truthy in JS, so
the only datum the handlers inspect is byteLength. -/
structure Request where
  method : String
  body : Except String Nat
deriving DecidableEq

/-- Outcome of one fetch to the HuggingFace endpoint inside the retry
loop.  fetchErr is the fetch call itself throwing (network error or the
180 s abort).  got carries the HTTP status, the result of awaiting
response.json() projected to its text field (error = the json call threw;
ok (some t) = the parsed object has a text field with string value t;
ok none = no text field), and the string that response.text() yields. -/
inductive AttemptResult where
  | fetchErr (msg : String)
  | got (status : Nat) (jsonText : Except String (Option String)) (rawText : String)
deriving DecidableEq

/-- Outcome of the single fetch made by the whisper-large-v3 handler:
either the fetch threw, or it produced a status plus the body text. -/
inductive SimpleFetch where
  | err (msg : String)
  | resp (status : Nat) (body : String)
deriving DecidableEq

/-- The JSON bodies the handlers can emit, one constructor per literal
response-construction site in the sources. -/
inductive Body where
  | postRequired
  | noAudioReceived
  | loading
  | apiError (status : Nat) (detail : String)
  | text (t : String)
  | noText
  | networkError (detail : String)
  | serverError (detail : String)
  | undefinedBody
  | noAudio
  | loadingW
  | hfError (status : Nat) (detail : String)
  | passthrough (s : String)
  | proxyError (detail : String)
  | noApiKey
  | noTextA
  | transcriptionError (detail : String)
deriving DecidableEq

/-- An outer response: protocol status plus JSON body. -/
structure Resp where
  status : Nat
  body : Body
deriving DecidableEq

/-- What one run of a retry loop produces: the backoff waits inserted (in
ms, in order), the number of outbound fetch calls started, and the
response returned. -/
structure LoopOut where
  waits : List Nat
  calls : Nat
  resp : Resp
deriving DecidableEq

/-- What one full handler run produces: the Authorization header value the
handler would attach to its outbound calls (none when it never builds
headers), the waits, the outbound call count, and the response. -/
structure RunOut where
  auth : Option String
  waits : List Nat
  calls : Nat
  resp : Resp
deriving DecidableEq

namespace Part000

def MAX_RETRIES : Nat := 5

def BASE_WAIT : Nat := 20000

def HF_MODEL_ID : String := "tarteel-ai/whisper-base-ar-quran"

def HF_API_URL : String := "https://api-inference.huggingface.co/models/" ++ HF_MODEL_ID

/-- The retry loop of src/unnamed/part_000 (for attempt = 0; attempt <
MAX_RETRIES; attempt++).  The loop is written with a structural fuel that
starts at MAX_RETRIES, so fuel = MAX_RETRIES - attempt at every call and
the fuel-out case coincides with the loop guard attempt < MAX_RETRIES
failing; the guard itself is kept verbatim.  Each iteration: wait
BASE_WAIT + attempt * 15000 ms when attempt > 0, then fetch.  503 with a
parseable JSON body retries unless this is the last attempt, in which
case the loading envelope is returned.  Any other non-2xx status returns
the api error envelope carrying response.text() at once.  A 2xx parses
JSON: a truthy text field is the success envelope, otherwise the no-text
envelope.  A throw anywhere (fetch, json) lands in the catch: last
attempt returns the network-error envelope, otherwise the loop
continues. -/
def loop (bk : Nat → AttemptResult) : Nat → Nat → LoopOut
  | _, 0 => ⟨[], 0, ⟨0, Body.undefinedBody⟩⟩
  | attempt, fuel + 1 =>
    if attempt < MAX_RETRIES then
      let waits := if 0 < attempt then [BASE_WAIT + attempt * 15000] else []
      match bk attempt with
      | AttemptResult.fetchErr msg =>
        if attempt = MAX_RETRIES - 1 then
          ⟨waits, 1, ⟨200, Body.networkError msg⟩⟩
        else
          let r := loop bk (attempt + 1) fuel
          ⟨waits ++ r.waits, 1 + r.calls, r.resp⟩
      | AttemptResult.got status jsonText rawText =>
        if status = 503 then
          match jsonText with
          | Except.error msg =>
            if attempt = MAX_RETRIES - 1 then
              ⟨waits, 1, ⟨200, Body.networkError msg⟩⟩
            else
              let r := loop bk (attempt + 1) fuel
              ⟨waits ++ r.waits, 1 + r.calls, r.resp⟩
          | Except.ok _ =>
            if attempt < MAX_RETRIES - 1 then
              let r := loop bk (attempt + 1) fuel
              ⟨waits ++ r.waits, 1 + r.calls, r.resp⟩
            else
              ⟨waits, 1, ⟨200, Body.loading⟩⟩
        else if ¬ (200 ≤ status ∧ status ≤ 299) then
          ⟨waits, 1, ⟨200, Body.apiError status rawText⟩⟩
        else
          match jsonText with
          | Except.error msg =>
            if attempt = MAX_RETRIES - 1 then
              ⟨waits, 1, ⟨200, Body.networkError msg⟩⟩
            else
              let r := loop bk (attempt + 1) fuel
              ⟨waits ++ r.waits, 1 + r.calls, r.resp⟩
          | Except.ok (some t) =>
            if t = "" then ⟨waits, 1, ⟨200, Body.noText⟩⟩
            else ⟨waits, 1, ⟨200, Body.text t⟩⟩
          | Except.ok none => ⟨waits, 1, ⟨200, Body.noText⟩⟩
    else ⟨[], 0, ⟨0, Body.undefinedBody⟩⟩

/-- The default export handler of src/unnamed/part_000.  Non-POST methods
get the 405 envelope; a thrown arrayBuffer lands in the outer catch which
returns the 500 server-error envelope; a buffer under 100 bytes gets the
400 no-audio envelope with no outbound call; otherwise the headers are
built (the Authorization value is recorded in the run; a present API key
is truthy in JS exactly when nonempty) and the retry loop runs. -/
def handler (HF_API_KEY : Option String) (req : Request)
    (bk : Nat → AttemptResult) : RunOut :=
  if req.method ≠ "POST" then ⟨none, [], 0, ⟨405, Body.postRequired⟩⟩
  else
    match req.body with
    | Except.error msg => ⟨none, [], 0, ⟨500, Body.serverError msg⟩⟩
    | Except.ok len =>
      if len < 100 then ⟨none, [], 0, ⟨400, Body.noAudioReceived⟩⟩
      else
        let auth := match HF_API_KEY with
          | some k => if k = "" then none else some ("Bearer " ++ k)
          | none => none
        let r := loop bk 0 MAX_RETRIES
        ⟨auth, r.waits, r.calls, r.resp⟩

end Part000

namespace Part001

def MAX_RETRIES : Nat := 5

def BASE_WAIT : Nat := 20000

def HF_MODEL_ID : String := "tarteel-ai/whisper-base-ar-quran"

def HF_API_URL : String := "https://router.huggingface.co/hf-inference/models/" ++ HF_MODEL_ID

/-- The retry loop of src/unnamed/part_001.  Identical control flow to
Part000.loop — the source differs only in extra console logging, the
endpoint constant, and the api-error branch sending
errorText.substring(0, 200) (modelled with String.take 200) instead of
the full error text. -/
def loop (bk : Nat → AttemptResult) : Nat → Nat → LoopOut
  | _, 0 => ⟨[], 0, ⟨0, Body.undefinedBody⟩⟩
  | attempt, fuel + 1 =>
    if attempt < MAX_RETRIES then
      let waits := if 0 < attempt then [BASE_WAIT + attempt * 15000] else []
      match bk attempt with
      | AttemptResult.fetchErr msg =>
        if attempt = MAX_RETRIES - 1 then
          ⟨waits, 1, ⟨200, Body.networkError msg⟩⟩
        else
          let r := loop bk (attempt + 1) fuel
          ⟨waits ++ r.waits, 1 + r.calls, r.resp⟩
      | AttemptResult.got status jsonText rawText =>
        if status = 503 then
          match jsonText with
          | Except.error msg =>
            if attempt = MAX_RETRIES - 1 then
              ⟨waits, 1, ⟨200, Body.networkError msg⟩⟩
            else
              let r := loop bk (attempt + 1) fuel
              ⟨waits ++ r.waits, 1 + r.calls, r.resp⟩
          | Except.ok _ =>
            if attempt < MAX_RETRIES - 1 then
              let r := loop bk (attempt + 1) fuel
              ⟨waits ++ r.waits, 1 + r.calls, r.resp⟩
            else
              ⟨waits, 1, ⟨200, Body.loading⟩⟩
        else if ¬ (200 ≤ status ∧ status ≤ 299) then
          ⟨waits, 1, ⟨200, Body.apiError status (rawText.take 200)⟩⟩
        else
          match jsonText with
          | Except.error msg =>
            if attempt = MAX_RETRIES - 1 then
              ⟨waits, 1, ⟨200, Body.networkError msg⟩⟩
            else
              let r := loop bk (attempt + 1) fuel
              ⟨waits ++ r.waits, 1 + r.calls, r.resp⟩
          | Except.ok (some t) =>
            if t = "" then ⟨waits, 1, ⟨200, Body.noText⟩⟩
            else ⟨waits, 1, ⟨200, Body.text t⟩⟩
          | Except.ok none => ⟨waits, 1, ⟨200, Body.noText⟩⟩
    else ⟨[], 0, ⟨0, Body.undefinedBody⟩⟩

/-- The default export handler of src/unnamed/part_001; textually the
same pipeline as Part000.handler around the Part001 loop. -/
def handler (HF_API_KEY : Option String) (req : Request)
    (bk : Nat → AttemptResult) : RunOut :=
  if req.method ≠ "POST" then ⟨none, [], 0, ⟨405, Body.postRequired⟩⟩
  else
    match req.body with
    | Except.error msg => ⟨none, [], 0, ⟨500, Body.serverError msg⟩⟩
    | Except.ok len =>
      if len < 100 then ⟨none, [], 0, ⟨400, Body.noAudioReceived⟩⟩
      else
        let auth := match HF_API_KEY with
          | some k => if k = "" then none else some ("Bearer " ++ k)
          | none => none
        let r := loop bk 0 MAX_RETRIES
        ⟨auth, r.waits, r.calls, r.resp⟩

end Part001

namespace WhisperV3

def HF_URL : String := "https://router.huggingface.co/hf-inference/models/openai/whisper-large-v3"

/-- The first default export handler in src/netlify/functions/
transcribe.mjs (whisper-large-v3 variant).  Exactly one fetch is made per
valid POST; there is no retry loop and no wait.  A thrown arrayBuffer or
fetch lands in the catch, which returns the proxy-error envelope under
outer status 200.  A short buffer returns the no-audio envelope under
status 200.  Non-ok statuses: 503 maps to the loading envelope, anything
else to the hf-error envelope with the body text truncated to 300
characters; an ok status passes the backend body through verbatim. -/
def handler (req : Request) (bk : SimpleFetch) : RunOut :=
  if req.method ≠ "POST" then ⟨none, [], 0, ⟨405, Body.postRequired⟩⟩
  else
    match req.body with
    | Except.error msg => ⟨none, [], 0, ⟨200, Body.proxyError msg⟩⟩
    | Except.ok len =>
      if len < 100 then ⟨none, [], 0, ⟨200, Body.noAudio⟩⟩
      else
        match bk with
        | SimpleFetch.err msg => ⟨none, [], 1, ⟨200, Body.proxyError msg⟩⟩
        | SimpleFetch.resp status body =>
          if ¬ (200 ≤ status ∧ status ≤ 299) then
            if status = 503 then ⟨none, [], 1, ⟨200, Body.loadingW⟩⟩
            else ⟨none, [], 1, ⟨200, Body.hfError status (body.take 300)⟩⟩
          else ⟨none, [], 1, ⟨200, Body.passthrough body⟩⟩

end WhisperV3

namespace AssemblyAI

/-- Outcome of one poll fetch in the AssemblyAI transcribeAudio loop:
throwP is the fetch or its json() throwing; data carries pollData.status,
pollData.text (some t when the field is a string t, none when absent) and
the string interpolation of pollData.error. -/
inductive PollStep where
  | throwP (msg : String)
  | data (status : String) (text : Option String) (errField : String)
deriving DecidableEq

/-- Result of running the poll loop: the number of poll fetches made, the
one-second waits inserted (in ms), and either the text returned or the
message of the error thrown. -/
structure PollOut where
  polls : Nat
  waits : List Nat
  out : Except String String
deriving DecidableEq

def maxAttempts : Nat := 60

/-- The polling loop of transcribeAudio in src/netlify/functions/
transcribe.mjs: while (attempts < maxAttempts) fetch the job status;
status completed returns pollData.text with undefined defaulted to the
empty string; status error throws; anything else waits 1000 ms and
increments attempts; falling out of the loop throws the timeout error.
Written with a structural fuel that starts at maxAttempts so that fuel =
maxAttempts - attempts at every call; the loop guard is kept verbatim. -/
def pollLoop (poll : Nat → PollStep) : Nat → Nat → PollOut
  | _, 0 => ⟨0, [], Except.error "Transcription timeout"⟩
  | attempts, fuel + 1 =>
    if attempts < maxAttempts then
      match poll attempts with
      | PollStep.throwP msg => ⟨1, [], Except.error msg⟩
      | PollStep.data status text errField =>
        if status = "completed" then ⟨1, [], Except.ok (text.getD "")⟩
        else if status = "error" then
          ⟨1, [], Except.error ("Transcription error: " ++ errField)⟩
        else
          let r := pollLoop poll (attempts + 1) fuel
          ⟨1 + r.polls, 1000 :: r.waits, r.out⟩
    else ⟨0, [], Except.error "Transcription timeout"⟩

/-- Outcome of one plain fetch in uploadAudio or the submission step of
transcribeAudio: the fetch threw, or it returned a status together with
the relevant field of its parsed JSON body (upload_url, then id),
where error means the json call threw. -/
inductive StepFetch where
  | err (msg : String)
  | resp (status : Nat) (json : Except String String)
deriving DecidableEq

/-- uploadAudio of transcribe.mjs: a non-ok status throws
"Upload failed: " followed by the status, otherwise the upload_url field
of the parsed body is returned; a fetch or json throw propagates. -/
def uploadAudio (f : StepFetch) : Except String String :=
  match f with
  | StepFetch.err msg => Except.error msg
  | StepFetch.resp status json =>
    if ¬ (200 ≤ status ∧ status ≤ 299) then
      Except.error ("Upload failed: " ++ toString status)
    else json

/-- The submission step of transcribeAudio: a non-ok status throws
"Transcription submission failed: " followed by the status, otherwise
the id field of the parsed body is returned. -/
def submitJob (f : StepFetch) : Except String String :=
  match f with
  | StepFetch.err msg => Except.error msg
  | StepFetch.resp status json =>
    if ¬ (200 ≤ status ∧ status ≤ 299) then
      Except.error ("Transcription submission failed: " ++ toString status)
    else json

/-- Everything the AssemblyAI handler observes from the outside: the
upload fetch, the submission fetch, and the poll fetches. -/
structure Oracle where
  upload : StepFetch
  submit : StepFetch
  poll : Nat → PollStep

/-- The second default export handler in src/netlify/functions/
transcribe.mjs (AssemblyAI variant).  Non-POST gets 405.  A missing (or
empty, hence falsy) ASSEMBLYAI_KEY returns the no-api-key envelope under
200 before reading the body.  A thrown arrayBuffer lands in the catch,
which returns the transcription-error envelope under 200.  A buffer under
100 bytes returns the 400 no-audio envelope.  Otherwise upload, submit
and poll run in order; any thrown error lands in the catch; a returned
text that is empty after trim gives the no-speech envelope, else the
success envelope.  calls counts the outbound fetches (upload, submission,
polls); auth records the Authorization header value (the raw key). -/
def handler (ASSEMBLYAI_KEY : Option String) (req : Request)
    (o : Oracle) : RunOut :=
  if req.method ≠ "POST" then ⟨none, [], 0, ⟨405, Body.postRequired⟩⟩
  else
    match ASSEMBLYAI_KEY with
    | none => ⟨none, [], 0, ⟨200, Body.noApiKey⟩⟩
    | some k =>
      if k = "" then ⟨none, [], 0, ⟨200, Body.noApiKey⟩⟩
      else
        match req.body with
        | Except.error msg => ⟨none, [], 0, ⟨200, Body.transcriptionError msg⟩⟩
        | Except.ok len =>
          if len < 100 then ⟨none, [], 0, ⟨400, Body.noAudioReceived⟩⟩
          else
            match uploadAudio o.upload with
            | Except.error msg => ⟨some k, [], 1, ⟨200, Body.transcriptionError msg⟩⟩
            | Except.ok _url =>
              match submitJob o.submit with
              | Except.error msg => ⟨some k, [], 2, ⟨200, Body.transcriptionError msg⟩⟩
              | Except.ok _id =>
                let p := pollLoop o.poll 0 maxAttempts
                match p.out with
                | Except.error msg =>
                  ⟨some k, p.waits, 2 + p.polls, ⟨200, Body.transcriptionError msg⟩⟩
                | Except.ok text =>
                  if text.trim = "" then
                    ⟨some k, p.waits, 2 + p.polls, ⟨200, Body.noTextA⟩⟩
                  else
                    ⟨some k, p.waits, 2 + p.polls, ⟨200, Body.text text⟩⟩

end AssemblyAI

/-- The string values appearing in the JSON serialization of a body,
error kinds and fixed messages included, exactly as the sources write
them. -/
def Body.strings : Body → List String
  | Body.postRequired => ["POST required"]
  | Body.noAudioReceived => ["No audio data received"]
  | Body.loading =>
    ["loading", "Model is warming up - please wait 2-3 minutes and try again"]
  | Body.apiError _ d => ["api_error", d]
  | Body.text t => [t]
  | Body.noText => ["no_text", "API returned valid response but no text field"]
  | Body.networkError d =>
    ["network_error", d,
     "Could not reach AI service. Please check your internet and try again."]
  | Body.serverError d => ["server_error", "Internal server error", d]
  | Body.undefinedBody => []
  | Body.noAudio => ["no_audio"]
  | Body.loadingW => ["loading"]
  | Body.hfError _ d => ["hf_error", d]
  | Body.passthrough s => [s]
  | Body.proxyError d => ["proxy_error", d]
  | Body.noApiKey => ["no_api_key", "Server not configured. Please contact admin."]
  | Body.noTextA => ["no_text", "No speech detected in audio"]
  | Body.transcriptionError d =>
    ["transcription_error", "Could not transcribe audio", d]

/-- The strings a single backend attempt supplies to the handler. -/
def AttemptResult.strings : AttemptResult → List String
  | AttemptResult.fetchErr msg => [msg]
  | AttemptResult.got _ jsonText rawText =>
    rawText :: (match jsonText with
      | Except.error msg => [msg]
      | Except.ok (some t) => [t]
      | Except.ok none => [])

/-- All strings the environment supplies to a part_000 run: the
arrayBuffer error message, if any, and everything the backend sends in
the at most MAX_RETRIES attempts the loop can make. -/
def srcStrings (req : Request) (bk : Nat → AttemptResult) : List String :=
  (match req.body with
    | Except.error msg => [msg]
    | Except.ok _ => []) ++
  (List.range Part000.MAX_RETRIES).flatMap (fun i => (bk i).strings)

/-- The string literals baked into the part_000 source. -/
def fixedLits : List String :=
  ["POST required", "No audio data received", "loading",
   "Model is warming up - please wait 2-3 minutes and try again",
   "api_error", "no_text", "API returned valid response but no text field",
   "network_error",
   "Could not reach AI service. Please check your internet and try again.",
   "server_error", "Internal server error"]

/-- Whether the needle character list occurs at the start of the hay. -/
def startsWithChars : List Char → List Char → Bool
  | [], _ => true
  | _ :: _, [] => false
  | a :: as, b :: bs => a = b && startsWithChars as bs

/-- Whether the needle character list occurs somewhere inside the hay. -/
def containsChars (needle : List Char) : List Char → Bool
  | [] => needle.isEmpty
  | b :: bs => startsWithChars needle (b :: bs) || containsChars needle bs

/-- Whether needle occurs as a contiguous substring of hay. -/
def strContains (hay needle : String) : Bool :=
  containsChars needle.data hay.data

/-- Truncate the detail of the api-error body to its first 200
characters, leaving every other body unchanged: the one observable
difference between the part_001 and part_000 response envelopes. -/
def truncBody : Body → Body
  | Body.apiError s d => Body.apiError s (d.take 200)
  | b => b

/-- Apply truncBody to the response of a run, keeping auth, waits and
call count. -/
def truncRun (r : RunOut) : RunOut :=
  ⟨r.auth, r.waits, r.calls, ⟨r.resp.status, truncBody r.resp.body⟩⟩

/-- Apply truncBody to the response of a loop result. -/
def truncLoopOut (r : LoopOut) : LoopOut :=
  ⟨r.waits, r.calls, ⟨r.resp.status, truncBody r.resp.body⟩⟩

/-- Every response the part_000 retry loop can produce has outer status
200, provided the loop is entered with its guard satisfied and enough
fuel for the guard to be the only exit: every return statement inside the
loop body carries status 200, and the last attempt returns on every
path. -/
theorem loop000_status (bk : Nat → AttemptResult) :
    ∀ fuel attempt, attempt < Part000.MAX_RETRIES →
      Part000.MAX_RETRIES ≤ attempt + fuel →
      (Part000.loop bk attempt fuel).resp.status = 200 := by
  intro fuel
  induction fuel with
  | zero =>
    intro attempt h1 h2
    exact absurd h2 (by simp [Part000.MAX_RETRIES] at h1 ⊢; omega)
  | succ fuel ih =>
    intro attempt h1 h2
    rw [Part000.loop, if_pos h1]
    rcases hbk : bk attempt with msg | ⟨status, jsonText, rawText⟩
    · by_cases hlast : attempt = Part000.MAX_RETRIES - 1
      · simp [hlast]
      · have hlt : attempt + 1 < Part000.MAX_RETRIES := by
          simp [Part000.MAX_RETRIES] at h1 hlast ⊢; omega
        simp only [if_neg hlast]
        exact ih (attempt + 1) hlt (by omega)
    · by_cases h503 : status = 503
      · rcases jsonText with msg | jv
        · by_cases hlast : attempt = Part000.MAX_RETRIES - 1
          · simp [h503, hlast]
          · have hlt : attempt + 1 < Part000.MAX_RETRIES := by
              simp [Part000.MAX_RETRIES] at h1 hlast ⊢; omega
            simp only [h503, if_pos rfl, if_neg hlast]
            exact ih (attempt + 1) hlt (by omega)
        · by_cases hlast : attempt < Part000.MAX_RETRIES - 1
          · simp only [h503, if_pos rfl, if_pos hlast]
            exact ih (attempt + 1) (by omega) (by omega)
          · simp [h503, hlast]
      · by_cases hok : 200 ≤ status ∧ status ≤ 299
        · rcases jsonText with msg | jv
          · by_cases hlast : attempt = Part000.MAX_RETRIES - 1
            · simp [h503, hok, hlast]
            · have hlt : attempt + 1 < Part000.MAX_RETRIES := by
                simp [Part000.MAX_RETRIES] at h1 hlast ⊢; omega
              simp only [if_neg h503, if_neg (by simp [hok] : ¬ ¬ (200 ≤ status ∧ status ≤ 299)),
                if_neg hlast]
              exact ih (attempt + 1) hlt (by omega)
          · rcases jv with _ | t
            · simp [h503, hok]
            · by_cases ht : t = "" <;> simp [h503, hok, ht]
        · simp [h503, hok]

/-- The delay schedule of part_000 stated as a closed form: the retry
loop visits attempt indices attempt, attempt + 1, ... consecutively (one
fetch per visit), and the wait inserted before the visit with index i is
BASE_WAIT + i * 15000 ms when 0 < i and nothing when i = 0, with no upper
cap anywhere. -/
theorem loop000_waits (bk : Nat → AttemptResult) :
    ∀ fuel attempt,
      (Part000.loop bk attempt fuel).waits =
        (List.range' attempt (Part000.loop bk attempt fuel).calls).filterMap
          (fun i => if 0 < i then some (Part000.BASE_WAIT + i * 15000) else none) := by
  intro fuel
  induction fuel with
  | zero => intro attempt; simp [Part000.loop]
  | succ fuel ih =>
    intro attempt
    by_cases h1 : attempt < Part000.MAX_RETRIES
    · rw [Part000.loop, if_pos h1]
      have hsingle : ∀ a : Nat,
          List.filterMap
              (fun i => if 0 < i then some (Part000.BASE_WAIT + i * 15000) else none) [a] =
            if 0 < a then [Part000.BASE_WAIT + a * 15000] else [] := by
        intro a; by_cases ha : 0 < a <;> simp [ha]
      have hcons : ∀ m : Nat,
          List.range' attempt (1 + m) = attempt :: List.range' (attempt + 1) m := by
        intro m
        rw [Nat.add_comm 1 m]
        exact List.range'_succ attempt m 1
      have hstep : ∀ m : Nat,
          (List.range' attempt (1 + m)).filterMap
              (fun i => if 0 < i then some (Part000.BASE_WAIT + i * 15000) else none) =
            (if 0 < attempt then [Part000.BASE_WAIT + attempt * 15000] else []) ++
              (List.range' (attempt + 1) m).filterMap
                (fun i => if 0 < i then some (Part000.BASE_WAIT + i * 15000) else none) := by
        intro m
        rw [hcons m, List.filterMap_cons]
        by_cases ha : 0 < attempt <;> simp [ha]
      rcases hbk : bk attempt with msg | ⟨status, jsonText, rawText⟩
      · by_cases hlast : attempt = Part000.MAX_RETRIES - 1
        · simp [hlast, hsingle, Part000.MAX_RETRIES]
        · simp [hlast, hstep, ih (attempt + 1)]
      · by_cases h503 : status = 503
        · rcases jsonText with msg | jv
          · by_cases hlast : attempt = Part000.MAX_RETRIES - 1
            · simp [h503, hlast, hsingle, Part000.MAX_RETRIES]
            · simp [h503, hlast, hstep, ih (attempt + 1)]
          · by_cases hlast : attempt < Part000.MAX_RETRIES - 1
            · simp [h503, hlast, hstep, ih (attempt + 1)]
            · have hlast4 : ¬ attempt < 4 := by
                simpa [Part000.MAX_RETRIES] using hlast
              simp [h503, hlast4, hsingle, Part000.MAX_RETRIES]
        · by_cases hok : 200 ≤ status ∧ status ≤ 299
          · rcases jsonText with msg | jv
            · by_cases hlast : attempt = Part000.MAX_RETRIES - 1
              · simp [h503, hok, hlast, hsingle, Part000.MAX_RETRIES]
              · simp [h503, hok, hlast, hstep, ih (attempt + 1)]
            · rcases jv with _ | t
              · simp [h503, hok, hsingle, Part000.MAX_RETRIES]
              · by_cases ht : t = "" <;> simp [h503, hok, ht, hsingle, Part000.MAX_RETRIES]
          · simp [h503, hok, hsingle, Part000.MAX_RETRIES]
    · rw [Part000.loop, if_neg h1]
      simp

/-- The part_001 retry loop is the part_000 retry loop with the api-error
detail truncated to 200 characters: every branch of the two sources is
identical except that one response constructor. -/
theorem loop001_eq_trunc (bk : Nat → AttemptResult) :
    ∀ fuel attempt,
      Part001.loop bk attempt fuel = truncLoopOut (Part000.loop bk attempt fuel) := by
  intro fuel
  induction fuel with
  | zero => intro attempt; simp [Part000.loop, Part001.loop, truncLoopOut, truncBody]
  | succ fuel ih =>
    intro attempt
    have hBW : Part001.BASE_WAIT = Part000.BASE_WAIT := rfl
    have hMR : Part001.MAX_RETRIES = Part000.MAX_RETRIES := rfl
    by_cases h1 : attempt < Part000.MAX_RETRIES
    · have h1' : attempt < Part001.MAX_RETRIES := h1
      rw [Part000.loop, if_pos h1, Part001.loop, if_pos h1']
      rcases hbk : bk attempt with msg | ⟨status, jsonText, rawText⟩
      · by_cases hlast : attempt = Part000.MAX_RETRIES - 1
        · have hlast' : attempt = Part001.MAX_RETRIES - 1 := hlast
          simp [hlast, hlast', truncLoopOut, truncBody, hBW, hMR]
        · have hlast' : ¬ attempt = Part001.MAX_RETRIES - 1 := hlast
          simp [hlast, hlast', ih (attempt + 1), truncLoopOut, hBW, hMR]
      · by_cases h503 : status = 503
        · rcases jsonText with msg | jv
          · by_cases hlast : attempt = Part000.MAX_RETRIES - 1
            · have hlast' : attempt = Part001.MAX_RETRIES - 1 := hlast
              simp [h503, hlast, hlast', truncLoopOut, truncBody, hBW, hMR]
            · have hlast' : ¬ attempt = Part001.MAX_RETRIES - 1 := hlast
              simp [h503, hlast, hlast', ih (attempt + 1), truncLoopOut, hBW, hMR]
          · by_cases hlast : attempt < Part000.MAX_RETRIES - 1
            · have hlast' : attempt < Part001.MAX_RETRIES - 1 := hlast
              simp [h503, hlast, hlast', ih (attempt + 1), truncLoopOut, hBW, hMR]
            · have hlast' : ¬ attempt < Part001.MAX_RETRIES - 1 := hlast
              simp [h503, hlast, hlast', truncLoopOut, truncBody, hBW, hMR]
        · by_cases hok : 200 ≤ status ∧ status ≤ 299
          · rcases jsonText with msg | jv
            · by_cases hlast : attempt = Part000.MAX_RETRIES - 1
              · have hlast' : attempt = Part001.MAX_RETRIES - 1 := hlast
                simp [h503, hok, hlast, hlast', truncLoopOut, truncBody, hBW, hMR]
              · have hlast' : ¬ attempt = Part001.MAX_RETRIES - 1 := hlast
                simp [h503, hok, hlast, hlast', ih (attempt + 1), truncLoopOut, hBW, hMR]
            · rcases jv with _ | t
              · simp [h503, hok, truncLoopOut, truncBody, hBW, hMR]
              · by_cases ht : t = "" <;>
                  simp [h503, hok, ht, truncLoopOut, truncBody, hBW, hMR]
          · simp [h503, hok, truncLoopOut, truncBody, hBW, hMR]
    · have h1' : ¬ attempt < Part001.MAX_RETRIES := h1
      rw [Part000.loop, if_neg h1, Part001.loop, if_neg h1']
      simp [truncLoopOut, truncBody]

/-- The poll loop never makes more fetches than it has fuel for; with the
canonical fuel maxAttempts this is the poll ceiling. -/
theorem pollLoop_polls_le (poll : Nat → AssemblyAI.PollStep) :
    ∀ fuel attempts, (AssemblyAI.pollLoop poll attempts fuel).polls ≤ fuel := by
  intro fuel
  induction fuel with
  | zero => intro attempts; simp [AssemblyAI.pollLoop]
  | succ fuel ih =>
    intro attempts
    rw [AssemblyAI.pollLoop]
    by_cases h1 : attempts < AssemblyAI.maxAttempts
    · rcases hp : poll attempts with msg | ⟨status, text, errField⟩
      · simp [h1]
      · by_cases hc : status = "completed"
        · simp [h1, hc]
        · by_cases he : status = "error"
          · simp [h1, hc, he]
          · have := ih (attempts + 1)
            simp only [h1, if_pos h1, hp, hc, he, if_neg hc, if_neg he]
            simp
            omega
    · simp [h1]

/-- When no poll before the ceiling is terminal, the poll loop runs to
the ceiling: starting at index attempts with fuel maxAttempts - attempts,
it makes exactly fuel more fetches, waits 1000 ms after each, and ends
with the timeout error. -/
theorem pollLoop_timeout (poll : Nat → AssemblyAI.PollStep) :
    ∀ fuel attempts, attempts + fuel = AssemblyAI.maxAttempts →
      (∀ i, attempts ≤ i → i < AssemblyAI.maxAttempts →
        ∃ status text errField, poll i = AssemblyAI.PollStep.data status text errField ∧
          status ≠ "completed" ∧ status ≠ "error") →
      AssemblyAI.pollLoop poll attempts fuel =
        ⟨fuel, List.replicate fuel 1000, Except.error "Transcription timeout"⟩ := by
  intro fuel
  induction fuel with
  | zero => intro attempts _ _; simp [AssemblyAI.pollLoop]
  | succ fuel ih =>
    intro attempts hsum hnt
    have h1 : attempts < AssemblyAI.maxAttempts := by omega
    obtain ⟨status, text, errField, hp, hc, he⟩ := hnt attempts le_rfl h1
    rw [AssemblyAI.pollLoop, if_pos h1, hp]
    simp [hc, he, ih (attempts + 1) (by omega) (fun i hi hi2 => hnt i (by omega) hi2),
      List.replicate, Nat.add_comm 1 fuel]

/-- Every string in a response body produced by the part_000 retry loop
either came from the backend (the error text, the parsed text field, a
thrown message of some attempt with index below MAX_RETRIES) or is one of
the string literals of the source: the loop performs no scrubbing and no
other string transformation. -/
theorem loop000_strings (bk : Nat → AttemptResult) :
    ∀ fuel attempt s, s ∈ (Part000.loop bk attempt fuel).resp.body.strings →
      (∃ i, i < Part000.MAX_RETRIES ∧ s ∈ (bk i).strings) ∨ s ∈ fixedLits := by
  intro fuel
  induction fuel with
  | zero => intro attempt s hs; simp [Part000.loop, Body.strings] at hs
  | succ fuel ih =>
    intro attempt s hs
    by_cases h1 : attempt < Part000.MAX_RETRIES
    · rw [Part000.loop, if_pos h1] at hs
      rcases hbk : bk attempt with msg | ⟨status, jsonText, rawText⟩ <;>
        rw [hbk] at hs <;> (try dsimp only at hs)
      · by_cases hlast : attempt = Part000.MAX_RETRIES - 1
        · rw [if_pos hlast] at hs
          simp only [Body.strings, List.mem_cons,
            List.not_mem_nil, or_false] at hs
          rcases hs with rfl | rfl | rfl
          · exact Or.inr (by simp [fixedLits])
          · exact Or.inl ⟨attempt, h1, by simp [AttemptResult.strings, hbk]⟩
          · exact Or.inr (by simp [fixedLits])
        · rw [if_neg hlast] at hs
          exact ih (attempt + 1) s hs
      · by_cases h503 : status = 503
        · rw [if_pos h503] at hs
          rcases jsonText with msg | jv <;> (try dsimp only at hs)
          · by_cases hlast : attempt = Part000.MAX_RETRIES - 1
            · rw [if_pos hlast] at hs
              simp only [Body.strings, List.mem_cons,
                List.not_mem_nil, or_false] at hs
              rcases hs with rfl | rfl | rfl
              · exact Or.inr (by simp [fixedLits])
              · exact Or.inl ⟨attempt, h1, by simp [AttemptResult.strings, hbk]⟩
              · exact Or.inr (by simp [fixedLits])
            · rw [if_neg hlast] at hs
              exact ih (attempt + 1) s hs
          · by_cases hlast : attempt < Part000.MAX_RETRIES - 1
            · rw [if_pos hlast] at hs
              exact ih (attempt + 1) s hs
            · rw [if_neg hlast] at hs
              simp only [Body.strings, List.mem_cons,
                List.not_mem_nil, or_false] at hs
              rcases hs with rfl | rfl
              · exact Or.inr (by simp [fixedLits])
              · exact Or.inr (by simp [fixedLits])
        · by_cases hok : 200 ≤ status ∧ status ≤ 299
          · rw [if_neg h503, if_neg (by simpa using hok)] at hs
            rcases jsonText with msg | jv <;> (try dsimp only at hs)
            · by_cases hlast : attempt = Part000.MAX_RETRIES - 1
              · rw [if_pos hlast] at hs
                simp only [Body.strings, List.mem_cons,
                  List.not_mem_nil, or_false] at hs
                rcases hs with rfl | rfl | rfl
                · exact Or.inr (by simp [fixedLits])
                · exact Or.inl ⟨attempt, h1, by simp [AttemptResult.strings, hbk]⟩
                · exact Or.inr (by simp [fixedLits])
              · rw [if_neg hlast] at hs
                exact ih (attempt + 1) s hs
            · rcases jv with _ | t <;> (try dsimp only at hs)
              · simp only [Body.strings, List.mem_cons,
                  List.not_mem_nil, or_false] at hs
                rcases hs with rfl | rfl
                · exact Or.inr (by simp [fixedLits])
                · exact Or.inr (by simp [fixedLits])
              · by_cases ht : t = ""
                · rw [if_pos ht] at hs
                  simp only [Body.strings, List.mem_cons,
                    List.not_mem_nil, or_false] at hs
                  rcases hs with rfl | rfl
                  · exact Or.inr (by simp [fixedLits])
                  · exact Or.inr (by simp [fixedLits])
                · rw [if_neg ht] at hs
                  simp only [Body.strings, List.mem_cons,
                    List.not_mem_nil, or_false] at hs
                  subst hs
                  exact Or.inl ⟨attempt, h1, by simp [AttemptResult.strings, hbk]⟩
          · rw [if_neg h503, if_pos (by simpa using hok)] at hs
            simp only [Body.strings, List.mem_cons,
              List.not_mem_nil, or_false] at hs
            rcases hs with rfl | rfl
            · exact Or.inr (by simp [fixedLits])
            · exact Or.inl ⟨attempt, h1, by simp [AttemptResult.strings, hbk]⟩
    · rw [Part000.loop, if_neg h1] at hs
      simp [Body.strings] at hs

/-- Backend behaviour for the C1 witness: 503 with a parseable body on
attempts 0 and 1, then 200 with a text field on attempt 2. -/
def warmupBk : Nat → AttemptResult := fun i =>
  if i < 2 then AttemptResult.got 503 (Except.ok none) "w"
  else AttemptResult.got 200 (Except.ok (some "bismillah")) "raw"

/-- C1: if the backend answers 503 (with a parseable JSON body) on
attempts 1..N-1 and 200 with a truthy text field on attempt N, for any
1 ≤ N ≤ MAX_RETRIES, then the part_000 gateway returns the success
envelope with that text under outer status 200, and the number of backend
calls made is exactly N. -/
theorem claim1_success_after_warmup (N len : Nat) (key : Option String)
    (bk : Nat → AttemptResult) (t raw : String)
    (hN1 : 1 ≤ N) (hN5 : N ≤ Part000.MAX_RETRIES) (hlen : 100 ≤ len)
    (h503 : ∀ i, i < N - 1 →
      ∃ jv r, bk i = AttemptResult.got 503 (Except.ok jv) r)
    (hok : bk (N - 1) = AttemptResult.got 200 (Except.ok (some t)) raw)
    (ht : t ≠ "") :
    (Part000.handler key ⟨"POST", Except.ok len⟩ bk).resp = ⟨200, Body.text t⟩ ∧
    (Part000.handler key ⟨"POST", Except.ok len⟩ bk).calls = N := by
  have hMR : Part000.MAX_RETRIES = 5 := rfl
  rw [hMR] at hN5
  have hlen2 : ¬ len < 100 := by omega
  interval_cases N
  · simp only [Nat.sub_self] at hok
    simp [Part000.handler, Part000.loop, hlen2, hok, ht, Part000.MAX_RETRIES]
  · obtain ⟨jv0, r0, e0⟩ := h503 0 (by omega)
    simp only [show (2 : Nat) - 1 = 1 from rfl] at hok
    simp [Part000.handler, Part000.loop, hlen2, e0, hok, ht, Part000.MAX_RETRIES]
  · obtain ⟨jv0, r0, e0⟩ := h503 0 (by omega)
    obtain ⟨jv1, r1, e1⟩ := h503 1 (by omega)
    simp only [show (3 : Nat) - 1 = 2 from rfl] at hok
    simp [Part000.handler, Part000.loop, hlen2, e0, e1, hok, ht, Part000.MAX_RETRIES]
  · obtain ⟨jv0, r0, e0⟩ := h503 0 (by omega)
    obtain ⟨jv1, r1, e1⟩ := h503 1 (by omega)
    obtain ⟨jv2, r2, e2⟩ := h503 2 (by omega)
    simp only [show (4 : Nat) - 1 = 3 from rfl] at hok
    simp [Part000.handler, Part000.loop, hlen2, e0, e1, e2, hok, ht, Part000.MAX_RETRIES]
  · obtain ⟨jv0, r0, e0⟩ := h503 0 (by omega)
    obtain ⟨jv1, r1, e1⟩ := h503 1 (by omega)
    obtain ⟨jv2, r2, e2⟩ := h503 2 (by omega)
    obtain ⟨jv3, r3, e3⟩ := h503 3 (by omega)
    simp only [show (5 : Nat) - 1 = 4 from rfl] at hok
    simp [Part000.handler, Part000.loop, hlen2, e0, e1, e2, e3, hok, ht, Part000.MAX_RETRIES]

/-- C1 witness: a concrete run hitting 503 twice and succeeding on the
third attempt. -/
theorem claim1_success_after_warmup_witness :
    (Part000.handler none ⟨"POST", Except.ok 150⟩ warmupBk).resp =
      ⟨200, Body.text "bismillah"⟩ ∧
    (Part000.handler none ⟨"POST", Except.ok 150⟩ warmupBk).calls = 3 :=
  claim1_success_after_warmup 3 150 none warmupBk "bismillah" "raw"
    (by decide) (by decide) (by decide)
    (fun i hi => ⟨none, "w", by interval_cases i <;> rfl⟩) rfl (by decide)

/-- Backend behaviour answering 503 with a parseable body forever. -/
def warmingBk : Nat → AttemptResult := fun _ =>
  AttemptResult.got 503 (Except.ok none) "w"

/-- C5: if the backend answers 503 (with a parseable JSON body) on every
attempt, the part_000 gateway makes exactly MAX_RETRIES calls and then
returns the terminal warming envelope (error "loading") under outer
status 200 — the handler returns normally, no exception escapes. -/
theorem claim5_all_503_warming (key : Option String) (len : Nat)
    (bk : Nat → AttemptResult) (hlen : 100 ≤ len)
    (h : ∀ i, i < Part000.MAX_RETRIES →
      ∃ jv r, bk i = AttemptResult.got 503 (Except.ok jv) r) :
    (Part000.handler key ⟨"POST", Except.ok len⟩ bk).resp = ⟨200, Body.loading⟩ ∧
    (Part000.handler key ⟨"POST", Except.ok len⟩ bk).calls = Part000.MAX_RETRIES := by
  have hlen2 : ¬ len < 100 := by omega
  obtain ⟨jv0, r0, e0⟩ := h 0 (by decide)
  obtain ⟨jv1, r1, e1⟩ := h 1 (by decide)
  obtain ⟨jv2, r2, e2⟩ := h 2 (by decide)
  obtain ⟨jv3, r3, e3⟩ := h 3 (by decide)
  obtain ⟨jv4, r4, e4⟩ := h 4 (by decide)
  simp [Part000.handler, Part000.loop, hlen2, e0, e1, e2, e3, e4, Part000.MAX_RETRIES]

/-- C5 witness: the concrete always-warming backend. -/
theorem claim5_all_503_warming_witness :
    (Part000.handler none ⟨"POST", Except.ok 150⟩ warmingBk).resp =
      ⟨200, Body.loading⟩ ∧
    (Part000.handler none ⟨"POST", Except.ok 150⟩ warmingBk).calls =
      Part000.MAX_RETRIES :=
  claim5_all_503_warming none 150 warmingBk (by decide)
    (fun i _ => ⟨none, "w", rfl⟩)

/-- Backend behaviour for the C2 counterexample: one retryable 503, then
success. -/
def cex2bk : Nat → AttemptResult := fun i =>
  if i = 0 then AttemptResult.got 503 (Except.ok none) "w"
  else AttemptResult.got 200 (Except.ok (some "ok")) "r"

/-- C2 counterexample: after the retryable failure of the attempt with
index 0, the delay inserted before the next attempt is 35000 ms, not the
claimed min(base_wait + 0 * increment, max_wait): that expression is at
most BASE_WAIT = 20000 for every cap, and in particular the claimed
20 s first-retry wait does not match the observed 35 s. -/
theorem claim2_first_retry_wait_cex :
    (Part000.handler none ⟨"POST", Except.ok 150⟩ cex2bk).waits = [35000] ∧
    Part000.BASE_WAIT + 0 * 15000 = 20000 ∧
    (35000 : Nat) ≠ 20000 ∧
    Nat.min (Part000.BASE_WAIT + 0 * 15000) 35000 < 35000 := by decide

/-- C2 amended: the retry loop of part_000 visits consecutive attempt
indices starting at its entry index, one fetch per visit, and the wait
inserted before the visit with index i is BASE_WAIT + i * 15000 ms when
0 < i (there is no wait before index 0 and no upper cap); hence in a full
handler run the wait before the attempt with index i is
BASE_WAIT + i * 15000, so the delay after a retryable failure of attempt
index i is BASE_WAIT + (i + 1) * 15000 and the first retry waits 35 s. -/
theorem claim2_linear_uncapped_waits (key : Option String) (req : Request)
    (bk : Nat → AttemptResult) (fuel attempt : Nat) :
    (Part000.loop bk attempt fuel).waits =
      (List.range' attempt (Part000.loop bk attempt fuel).calls).filterMap
        (fun i => if 0 < i then some (Part000.BASE_WAIT + i * 15000) else none) ∧
    (Part000.handler key req bk).waits =
      (List.range' 0 (Part000.handler key req bk).calls).filterMap
        (fun i => if 0 < i then some (Part000.BASE_WAIT + i * 15000) else none) := by
  refine ⟨loop000_waits bk fuel attempt, ?_⟩
  rcases req with ⟨m, b⟩
  by_cases hm : m ≠ "POST"
  · simp [Part000.handler, hm]
  · rcases b with msg | len
    · simp [Part000.handler, hm]
    · by_cases hl : len < 100
      · simp [Part000.handler, hm, hl]
      · simp only [Part000.handler, hm, hl, if_neg, ite_false]
        simpa using loop000_waits bk Part000.MAX_RETRIES 0

/-- Backend behaviour answering a plain 500 with error text every time. -/
def cex4bk : Nat → AttemptResult := fun _ =>
  AttemptResult.got 500 (Except.ok none) "boom"

/-- C4 counterexample: with the backend answering HTTP 500 (a 5xx other
than 503) on the very first attempt, the part_000 gateway makes exactly
one call and finalizes at once with the api-error envelope even though
only 1 of the MAX_RETRIES attempts was used — no further attempt is
scheduled, contradicting the claimed retryability of 5xx failures. -/
theorem claim4_server_error_no_retry_cex :
    (Part000.handler none ⟨"POST", Except.ok 150⟩ cex4bk).calls = 1 ∧
    1 < Part000.MAX_RETRIES ∧
    (Part000.handler none ⟨"POST", Except.ok 150⟩ cex4bk).resp =
      ⟨200, Body.apiError 500 "boom"⟩ := by decide

/-- C4 amended: any attempt whose backend response has a status in
500..599 other than 503 terminates the retry loop immediately on that
attempt: the loop returns the api-error envelope carrying that status and
the backend error text under outer status 200, makes no further call and
schedules no further wait, regardless of how many attempts remain. -/
theorem claim4_non503_5xx_terminal (bk : Nat → AttemptResult)
    (attempt fuel status : Nat) (jsonText : Except String (Option String))
    (rawText : String)
    (hguard : attempt < Part000.MAX_RETRIES) (hfuel : 0 < fuel)
    (hbk : bk attempt = AttemptResult.got status jsonText rawText)
    (h5 : 500 ≤ status) (h9 : status ≤ 599) (hne : status ≠ 503) :
    Part000.loop bk attempt fuel =
      ⟨if 0 < attempt then [Part000.BASE_WAIT + attempt * 15000] else [], 1,
        ⟨200, Body.apiError status rawText⟩⟩ := by
  obtain ⟨fuel, rfl⟩ : ∃ f, fuel = f + 1 := ⟨fuel - 1, by omega⟩
  rw [Part000.loop, if_pos hguard, hbk]
  dsimp only
  rw [if_neg hne, if_pos (by omega : ¬ (200 ≤ status ∧ status ≤ 299))]

/-- C4 amended witness: the 500-answering backend at attempt 0 with the
full fuel. -/
theorem claim4_non503_5xx_terminal_witness :
    Part000.loop cex4bk 0 5 = ⟨[], 1, ⟨200, Body.apiError 500 "boom"⟩⟩ := by
  simpa using claim4_non503_5xx_terminal cex4bk 0 5 500 (Except.ok none) "boom"
    (by decide) (by decide) rfl (by decide) (by decide) (by decide)

/-- C3 counterexample: the outer protocol status is not always 200.  A
GET request gets 405 from part_000, a POST with a 10-byte payload gets
400, and a POST whose body read throws gets 500 — so a caller of the
part_000 gateway does have to branch on the outer status. -/
theorem claim3_outer_status_cex :
    (Part000.handler none ⟨"GET", Except.ok 150⟩ cex4bk).resp.status = 405 ∧
    (Part000.handler none ⟨"POST", Except.ok 10⟩ cex4bk).resp.status = 400 ∧
    (Part000.handler none ⟨"POST", Except.error "read aborted"⟩ cex4bk).resp.status = 500 ∧
    (405 : Nat) ≠ 200 ∧ (400 : Nat) ≠ 200 ∧ (500 : Nat) ≠ 200 := by decide

/-- C3 amended: every handler always returns a JSON envelope, but the
outer status is 200 only on some paths.  part_000: 405 for non-POST, 500
when reading the body throws, 400 for a short payload, and 200 for
everything that reaches the retry loop.  The whisper-large-v3 variant:
405 for non-POST and 200 otherwise (its short-payload and catch branches
already use 200).  The AssemblyAI variant: 405 for non-POST, 400 for a
short payload once a truthy key is configured, and 200 otherwise. -/
theorem claim3_outer_status_characterization (key akey : Option String)
    (req : Request) (bk : Nat → AttemptResult) (bw : SimpleFetch)
    (o : AssemblyAI.Oracle) :
    (Part000.handler key req bk).resp.status =
      (if req.method ≠ "POST" then 405
       else match req.body with
         | Except.error _ => 500
         | Except.ok len => if len < 100 then 400 else 200) ∧
    (WhisperV3.handler req bw).resp.status =
      (if req.method ≠ "POST" then 405 else 200) ∧
    (AssemblyAI.handler akey req o).resp.status =
      (if req.method ≠ "POST" then 405
       else match akey with
         | none => 200
         | some k =>
           if k = "" then 200
           else match req.body with
             | Except.error _ => 200
             | Except.ok len => if len < 100 then 400 else 200) := by
  rcases req with ⟨m, b⟩
  by_cases hm : m ≠ "POST"
  · simp [Part000.handler, WhisperV3.handler, AssemblyAI.handler, hm]
  refine ⟨?_, ?_, ?_⟩
  · rcases b with msg | len
    · simp [Part000.handler, hm]
    · by_cases hl : len < 100
      · simp [Part000.handler, hm, hl]
      · simp only [Part000.handler, hm, hl, ite_false]
        simpa using loop000_status bk Part000.MAX_RETRIES 0 (by decide) (by decide)
  · rcases b with msg | len
    · simp [WhisperV3.handler, hm]
    · by_cases hl : len < 100
      · simp [WhisperV3.handler, hm, hl]
      · rcases bw with msg | ⟨st, bd⟩
        · simp [WhisperV3.handler, hm, hl]
        · by_cases hok : 200 ≤ st ∧ st ≤ 299
          · simp [WhisperV3.handler, hm, hl, hok]
          · by_cases h503 : st = 503 <;> simp [WhisperV3.handler, hm, hl, hok, h503]
  · rcases akey with _ | k
    · simp [AssemblyAI.handler, hm]
    · by_cases hk : k = ""
      · simp [AssemblyAI.handler, hm, hk]
      · rcases b with msg | len
        · simp [AssemblyAI.handler, hm, hk]
        · by_cases hl : len < 100
          · simp [AssemblyAI.handler, hm, hk, hl]
          · rcases hu : AssemblyAI.uploadAudio o.upload with msg | url
            · simp [AssemblyAI.handler, hm, hk, hl, hu]
            · rcases hsub : AssemblyAI.submitJob o.submit with msg | id
              · simp [AssemblyAI.handler, hm, hk, hl, hu, hsub]
              · rcases hp : (AssemblyAI.pollLoop o.poll 0 AssemblyAI.maxAttempts).out
                  with msg | text
                · simp [AssemblyAI.handler, hm, hk, hl, hu, hsub, hp]
                · by_cases htr : text.trim = "" <;>
                    simp [AssemblyAI.handler, hm, hk, hl, hu, hsub, hp, htr]

/-- A poll oracle that is forever in a non-terminal status. -/
def pendingPoll : Nat → AssemblyAI.PollStep := fun _ =>
  AssemblyAI.PollStep.data "processing" none ""

/-- C6: if every polled status before the ceiling is non-terminal
(neither completed nor error), the AssemblyAI poll loop performs exactly
maxAttempts = 60 status fetches and then fails with the timeout error —
and for every poll oracle whatsoever the loop performs at most 60
fetches, so it always terminates within the ceiling. -/
theorem claim6_poll_ceiling_timeout (poll : Nat → AssemblyAI.PollStep)
    (h : ∀ i, i < AssemblyAI.maxAttempts →
      ∃ status text errField,
        poll i = AssemblyAI.PollStep.data status text errField ∧
        status ≠ "completed" ∧ status ≠ "error") :
    (AssemblyAI.pollLoop poll 0 AssemblyAI.maxAttempts).polls =
      AssemblyAI.maxAttempts ∧
    (AssemblyAI.pollLoop poll 0 AssemblyAI.maxAttempts).out =
      Except.error "Transcription timeout" ∧
    AssemblyAI.maxAttempts = 60 ∧
    ∀ (q : Nat → AssemblyAI.PollStep),
      (AssemblyAI.pollLoop q 0 AssemblyAI.maxAttempts).polls ≤
        AssemblyAI.maxAttempts := by
  have hrun := pollLoop_timeout poll AssemblyAI.maxAttempts 0
    (Nat.zero_add _) (fun i _ hi => h i hi)
  refine ⟨by rw [hrun], by rw [hrun], rfl, fun q => pollLoop_polls_le q AssemblyAI.maxAttempts 0⟩

/-- C6 witness: the forever-processing oracle. -/
theorem claim6_poll_ceiling_timeout_witness :
    (AssemblyAI.pollLoop pendingPoll 0 AssemblyAI.maxAttempts).polls =
      AssemblyAI.maxAttempts ∧
    (AssemblyAI.pollLoop pendingPoll 0 AssemblyAI.maxAttempts).out =
      Except.error "Transcription timeout" :=
  ⟨(claim6_poll_ceiling_timeout pendingPoll
      (fun i _ => ⟨"processing", none, "", rfl, by decide, by decide⟩)).1,
   (claim6_poll_ceiling_timeout pendingPoll
      (fun i _ => ⟨"processing", none, "", rfl, by decide, by decide⟩)).2.1⟩

/-- Backend behaviour whose error text contains the configured
credential. -/
def cex7bk : Nat → AttemptResult := fun _ =>
  AttemptResult.got 500 (Except.ok none) "Invalid token SECRET123"

/-- C7 counterexample: with the credential SECRET123 configured and the
backend answering 500 with an error text that contains the credential,
the part_000 gateway returns that text verbatim as the detail of its
failure envelope, so the response body does contain the configured
credential as a substring. -/
theorem claim7_credential_leak_cex :
    (Part000.handler (some "SECRET123") ⟨"POST", Except.ok 150⟩ cex7bk).resp.body =
      Body.apiError 500 "Invalid token SECRET123" ∧
    ((Part000.handler (some "SECRET123") ⟨"POST", Except.ok 150⟩
        cex7bk).resp.body).strings.any
      (fun s => strContains s "SECRET123") = true := by decide

/-- C7 amended: the part_000 gateway applies no scrubbing but also adds
nothing of its own: every string in the returned body is either a string
the environment supplied (the thrown arrayBuffer message or backend
error text, parsed text field or thrown message of some attempt) or one
of the string literals of the source — and the returned response is
entirely independent of the configured credential, which only ever flows
into the outbound Authorization header.  So a credential can appear in a
response only when the backend or the runtime already put it into one of
those supplied strings. -/
theorem claim7_no_scrub_taint (key : Option String) (req : Request)
    (bk : Nat → AttemptResult) (s : String)
    (hs : s ∈ ((Part000.handler key req bk).resp.body).strings) :
    (s ∈ srcStrings req bk ∨ s ∈ fixedLits) ∧
    ∀ key2 : Option String,
      (Part000.handler key2 req bk).resp = (Part000.handler key req bk).resp := by
  rcases req with ⟨m, b⟩
  constructor
  · rw [Part000.handler.eq_def] at hs
    dsimp only at hs
    by_cases hm : m ≠ "POST"
    · rw [if_pos hm] at hs
      simp only [Body.strings, List.mem_cons, List.not_mem_nil, or_false] at hs
      subst hs
      exact Or.inr (by simp [fixedLits])
    · rcases b with msg | len
      · rw [if_neg hm] at hs
        dsimp only at hs
        simp only [Body.strings, List.mem_cons, List.not_mem_nil, or_false] at hs
        rcases hs with rfl | rfl | rfl
        · exact Or.inr (by simp [fixedLits])
        · exact Or.inr (by simp [fixedLits])
        · exact Or.inl (by simp [srcStrings])
      · rw [if_neg hm] at hs
        dsimp only at hs
        by_cases hl : len < 100
        · rw [if_pos hl] at hs
          simp only [Body.strings, List.mem_cons, List.not_mem_nil, or_false] at hs
          subst hs
          exact Or.inr (by simp [fixedLits])
        · rw [if_neg hl] at hs
          dsimp only at hs
          rcases loop000_strings bk Part000.MAX_RETRIES 0 s hs with ⟨i, hi, hmem⟩ | hlit
          · refine Or.inl ?_
            simp only [srcStrings, List.mem_append, List.mem_flatMap]
            exact Or.inr ⟨i, by simpa using hi, hmem⟩
          · exact Or.inr hlit
  · intro key2
    by_cases hm : m ≠ "POST"
    · simp [Part000.handler, hm]
    · rcases b with msg | len
      · simp [Part000.handler, hm]
      · by_cases hl : len < 100 <;> simp [Part000.handler, hm, hl]

/-- C7 amended witness: concrete request, backend and body string. -/
theorem claim7_no_scrub_taint_witness :
    ("Invalid token SECRET123" ∈
        srcStrings ⟨"POST", Except.ok 150⟩ cex7bk ∨
      "Invalid token SECRET123" ∈ fixedLits) ∧
    ∀ key2 : Option String,
      (Part000.handler key2 ⟨"POST", Except.ok 150⟩ cex7bk).resp =
        (Part000.handler (some "SECRET123") ⟨"POST", Except.ok 150⟩ cex7bk).resp :=
  claim7_no_scrub_taint (some "SECRET123") ⟨"POST", Except.ok 150⟩ cex7bk
    "Invalid token SECRET123" (by decide)

/-- C8: a POST whose payload is shorter than 100 bytes is rejected with
the no-audio envelope and zero outbound calls, zero waits, by both the
part_000 retry gateway (status 400) and the whisper-large-v3 variant
(status 200) — no backend interaction of any kind happens. -/
theorem claim8_short_payload_no_call (key : Option String) (len : Nat)
    (bk : Nat → AttemptResult) (bw : SimpleFetch) (hlen : len < 100) :
    Part000.handler key ⟨"POST", Except.ok len⟩ bk =
      ⟨none, [], 0, ⟨400, Body.noAudioReceived⟩⟩ ∧
    WhisperV3.handler ⟨"POST", Except.ok len⟩ bw =
      ⟨none, [], 0, ⟨200, Body.noAudio⟩⟩ := by
  constructor <;> simp [Part000.handler, WhisperV3.handler, hlen]

/-- C8 witness: a 50-byte payload. -/
theorem claim8_short_payload_no_call_witness :
    Part000.handler none ⟨"POST", Except.ok 50⟩ cex4bk =
      ⟨none, [], 0, ⟨400, Body.noAudioReceived⟩⟩ ∧
    WhisperV3.handler ⟨"POST", Except.ok 50⟩ (SimpleFetch.resp 200 "x") =
      ⟨none, [], 0, ⟨200, Body.noAudio⟩⟩ :=
  claim8_short_payload_no_call none 50 cex4bk (SimpleFetch.resp 200 "x") (by decide)

/-- C9: the whisper-large-v3 handler makes at most one outbound call and
never waits, for every request and backend behaviour; and on a valid
POST whose single fetch returns 503 it immediately returns the loading
envelope under outer status 200 after exactly one call — no retry, no
backoff. -/
theorem claim9_single_shot_503 (len : Nat) (bod : String) (hlen : 100 ≤ len) :
    (∀ (req : Request) (bw : SimpleFetch),
      (WhisperV3.handler req bw).calls ≤ 1 ∧ (WhisperV3.handler req bw).waits = []) ∧
    WhisperV3.handler ⟨"POST", Except.ok len⟩ (SimpleFetch.resp 503 bod) =
      ⟨none, [], 1, ⟨200, Body.loadingW⟩⟩ := by
  have hlen2 : ¬ len < 100 := by omega
  constructor
  · intro req bw
    rcases req with ⟨m, b⟩
    by_cases hm : m ≠ "POST"
    · simp [WhisperV3.handler, hm]
    · rcases b with msg | l
      · simp [WhisperV3.handler, hm]
      · by_cases hl : l < 100
        · simp [WhisperV3.handler, hm, hl]
        · rcases bw with msg | ⟨st, bd⟩
          · simp [WhisperV3.handler, hm, hl]
          · by_cases hok : 200 ≤ st ∧ st ≤ 299
            · simp [WhisperV3.handler, hm, hl, hok]
            · by_cases h503 : st = 503 <;> simp [WhisperV3.handler, hm, hl, hok, h503]
  · simp [WhisperV3.handler, hlen2]

/-- C9 witness: a 150-byte payload and a 503 answer. -/
theorem claim9_single_shot_503_witness :
    ((WhisperV3.handler ⟨"POST", Except.ok 150⟩ (SimpleFetch.resp 503 "busy")).calls ≤ 1 ∧
      (WhisperV3.handler ⟨"POST", Except.ok 150⟩ (SimpleFetch.resp 503 "busy")).waits = []) ∧
    WhisperV3.handler ⟨"POST", Except.ok 150⟩ (SimpleFetch.resp 503 "busy") =
      ⟨none, [], 1, ⟨200, Body.loadingW⟩⟩ :=
  ⟨(claim9_single_shot_503 150 "busy" (by decide)).1 ⟨"POST", Except.ok 150⟩
      (SimpleFetch.resp 503 "busy"),
   (claim9_single_shot_503 150 "busy" (by decide)).2⟩

/-- C10: for every request, configured key and backend behaviour, the
part_001 handler returns exactly the part_000 run with the api-error
detail truncated to its first 200 characters (auth header, waits, call
count and everything else identical), and the two endpoint constants
differ. -/
theorem claim10_variant_equivalence (key : Option String) (req : Request)
    (bk : Nat → AttemptResult) :
    Part001.handler key req bk = truncRun (Part000.handler key req bk) ∧
    Part001.HF_API_URL ≠ Part000.HF_API_URL := by
  constructor
  · rcases req with ⟨m, b⟩
    by_cases hm : m ≠ "POST"
    · simp [Part000.handler, Part001.handler, hm, truncRun, truncBody]
    · rcases b with msg | len
      · simp [Part000.handler, Part001.handler, hm, truncRun, truncBody]
      · by_cases hl : len < 100
        · simp [Part000.handler, Part001.handler, hm, hl, truncRun, truncBody]
        · have hloop := loop001_eq_trunc bk Part000.MAX_RETRIES 0
          simp only [Part000.MAX_RETRIES, truncLoopOut] at hloop
          simp [Part000.handler, Part001.handler, hm, hl, truncRun,
            Part000.MAX_RETRIES, Part001.MAX_RETRIES, hloop]
  · decide

end Murattil
